import Mathlib

/-!
A shallow embedding of `packages/router-generator/src/config.ts` from the
router-generator package: the configuration schema with its defaults, the
configuration-file path resolver, the merge of file-sourced and inline
configuration, the `disableTypes` extension rewrite, POSIX path
resolution, and the validation checks, together with theorems about them.
-/

namespace TsrGen

/-- JavaScript field state: a key can be missing from an object, present
with the value `undefined`, or present with a real value.  `JSON.parse`
never produces `undef`, but an inline override object or a script
module's default export can. -/
inductive JsVal (α : Type) where
  | absent
  | undef
  | val (a : α)
deriving DecidableEq

/-- The `quoteStyle` enumeration `z.enum(['single', 'double'])`. -/
inductive QuoteStyle where
  | single
  | double
deriving DecidableEq

/-- The `pathParamsAllowedCharacters` enumeration
`z.enum([';', ':', '@', '&', '=', '+', '$', ','])`. -/
inductive AllowedChar where
  | semicolon
  | colon
  | atSign
  | ampersand
  | equalsSign
  | plusSign
  | dollarSign
  | comma
deriving DecidableEq

/-- Modelled from the spec: `virtualRouteConfig` accepts either the
virtual-root-route structure declared in `./filesystem/virtual/config`
(a file outside the observed source) or a plain string
(`virtualRootRouteSchema.or(z.string())`); the structural branch is kept
opaque here since no claim inspects it. -/
inductive VirtualRouteVal where
  | virtualRoot (data : String)
  | plain (s : String)
deriving DecidableEq

/-- The parsed `customScaffolding` sub-object. -/
structure CustomScaffolding where
  routeTemplate : String
  apiTemplate : String
deriving DecidableEq

/-- The parsed `experimental` sub-object. -/
structure Experimental where
  enableCodeSplitting : Option Bool
deriving DecidableEq

/-- The `defaultTemplate.routeTemplate` string of `config.ts` (braces and quotes
written with character escapes). -/
def defaultRouteTemplate : String :=
  "%%tsrImports%%\n\n%%tsrExportStart%%\x7b\n component: RouteComponent\n \x7d%%tsrExportEnd%%\n\nfunction RouteComponent() \x7b return <div>Hello \"%%tsrPath%%\"!</div> \x7d;\n"

/-- The `defaultTemplate.apiTemplate` string of `config.ts`. -/
def defaultApiTemplate : String :=
  "import \x7b json \x7d from \"@tanstack/start\";\n%%tsrImports%%\n\n%%tsrExportStart%%\x7b GET: (\x7b request, params \x7d) => \x7b return json(\x7b message:\x27Hello \"%%tsrPath%%\"!\x27 \x7d) \x7d\x7d%%tsrExportEnd%%\n"

/-- The `defaultTemplate` object of `config.ts`, which is also the
schema-level default for `customScaffolding`. -/
def defaultTemplate : CustomScaffolding :=
  { routeTemplate := defaultRouteTemplate
    apiTemplate := defaultApiTemplate }

/-- Schema default for `routeTreeFileHeader`. -/
def defaultRouteTreeFileHeader : List String :=
  ["/* eslint-disable */", "// @ts-nocheck", "// noinspection JSUnusedGlobalSymbols"]

/-- Raw (pre-validation) `customScaffolding` object. -/
structure RawScaffolding where
  routeTemplate : JsVal String
  apiTemplate : JsVal String
deriving DecidableEq

/-- Raw (pre-validation) `experimental` object. -/
structure RawExperimental where
  enableCodeSplitting : JsVal Bool
deriving DecidableEq

/-- A raw, well-typed JavaScript configuration object, as produced by
`JSON.parse` of `tsr.config.json`, by the default export of
`tsr.config.js`, or supplied inline by the caller.  Every top-level key
of `configSchema` appears, each in one of the three `JsVal` states. -/
structure PartialConfig where
  virtualRouteConfig : JsVal VirtualRouteVal
  routeFilePrefix : JsVal String
  routeFileIgnorePrefix : JsVal String
  routeFileIgnorePattern : JsVal String
  routesDirectory : JsVal String
  generatedRouteTree : JsVal String
  quoteStyle : JsVal QuoteStyle
  semicolons : JsVal Bool
  disableTypes : JsVal Bool
  addExtensions : JsVal Bool
  disableLogging : JsVal Bool
  disableManifestGeneration : JsVal Bool
  apiBase : JsVal String
  routeTreeFileHeader : JsVal (List String)
  routeTreeFileFooter : JsVal (List String)
  autoCodeSplitting : JsVal Bool
  indexToken : JsVal String
  routeToken : JsVal String
  pathParamsAllowedCharacters : JsVal (List AllowedChar)
  customScaffolding : JsVal RawScaffolding
  experimental : JsVal RawExperimental
deriving DecidableEq

/-- The fully parsed configuration (`z.infer<typeof configSchema>`). -/
structure Config where
  virtualRouteConfig : Option VirtualRouteVal
  routeFilePrefix : Option String
  routeFileIgnorePrefix : String
  routeFileIgnorePattern : Option String
  routesDirectory : String
  generatedRouteTree : String
  quoteStyle : QuoteStyle
  semicolons : Bool
  disableTypes : Bool
  addExtensions : Bool
  disableLogging : Bool
  disableManifestGeneration : Bool
  apiBase : String
  routeTreeFileHeader : List String
  routeTreeFileFooter : List String
  autoCodeSplitting : Option Bool
  indexToken : String
  routeToken : String
  pathParamsAllowedCharacters : Option (List AllowedChar)
  customScaffolding : CustomScaffolding
  experimental : Option Experimental
deriving DecidableEq

/-- Zod evaluation of one field: a present, defined value is transformed
by `g`; a missing or `undefined` value produces the fallback `d`. -/
def zodWith {β γ : Type} (g : β → γ) (d : γ) : JsVal β → γ
  | .val b => g b
  | _ => d

/-- Zod `z....optional().default(d)`: `undefined` (or a missing key) yields
the declared default. -/
def zodDefault {α : Type} (d : α) : JsVal α → α := zodWith id d

/-- Zod `z....optional()` without a default: `undefined` (or a missing key)
yields `none`. -/
def zodOptional {α : Type} : JsVal α → Option α := zodWith some none

/-- Parsing the `customScaffolding` sub-object: each sub-field is
independently defaulted. -/
def parseScaffolding (r : RawScaffolding) : CustomScaffolding :=
  { routeTemplate := zodDefault defaultTemplate.routeTemplate r.routeTemplate
    apiTemplate := zodDefault defaultTemplate.apiTemplate r.apiTemplate }

/-- Parsing the `experimental` sub-object. -/
def parseExperimental (r : RawExperimental) : Experimental :=
  { enableCodeSplitting := zodOptional r.enableCodeSplitting }

/-- The effect of `configSchema.parse` on a well-typed raw object: every declared
default of `configSchema` in `config.ts` is applied to missing or
`undefined` fields. -/
def configSchemaParse (p : PartialConfig) : Config :=
  { virtualRouteConfig := zodOptional p.virtualRouteConfig
    routeFilePrefix := zodOptional p.routeFilePrefix
    routeFileIgnorePrefix := zodDefault "-" p.routeFileIgnorePrefix
    routeFileIgnorePattern := zodOptional p.routeFileIgnorePattern
    routesDirectory := zodDefault "./src/routes" p.routesDirectory
    generatedRouteTree := zodDefault "./src/routeTree.gen.ts" p.generatedRouteTree
    quoteStyle := zodDefault QuoteStyle.single p.quoteStyle
    semicolons := zodDefault false p.semicolons
    disableTypes := zodDefault false p.disableTypes
    addExtensions := zodDefault false p.addExtensions
    disableLogging := zodDefault false p.disableLogging
    disableManifestGeneration := zodDefault false p.disableManifestGeneration
    apiBase := zodDefault "/api" p.apiBase
    routeTreeFileHeader := zodDefault defaultRouteTreeFileHeader p.routeTreeFileHeader
    routeTreeFileFooter := zodDefault [] p.routeTreeFileFooter
    autoCodeSplitting := zodOptional p.autoCodeSplitting
    indexToken := zodDefault "index" p.indexToken
    routeToken := zodDefault "route" p.routeToken
    pathParamsAllowedCharacters := zodOptional p.pathParamsAllowedCharacters
    customScaffolding := zodWith parseScaffolding defaultTemplate p.customScaffolding
    experimental := zodWith (fun r => some (parseExperimental r)) none p.experimental }

/-- One key of the object spread `{...fileConfig, ...inlineConfig}`: a
key present in the inline object (even with value `undefined`) replaces
the file-sourced entry; a missing inline key leaves the file entry. -/
def spreadOverride {α : Type} (fileVal inlineVal : JsVal α) : JsVal α :=
  match inlineVal with
  | .absent => fileVal
  | v => v

/-- The object spread `{...fileConfig, ...inlineConfig}` of `getConfig`,
shallow at the top level. -/
def mergeSpread (fileConfig inlineConfig : PartialConfig) : PartialConfig :=
  { virtualRouteConfig := spreadOverride fileConfig.virtualRouteConfig inlineConfig.virtualRouteConfig
    routeFilePrefix := spreadOverride fileConfig.routeFilePrefix inlineConfig.routeFilePrefix
    routeFileIgnorePrefix := spreadOverride fileConfig.routeFileIgnorePrefix inlineConfig.routeFileIgnorePrefix
    routeFileIgnorePattern := spreadOverride fileConfig.routeFileIgnorePattern inlineConfig.routeFileIgnorePattern
    routesDirectory := spreadOverride fileConfig.routesDirectory inlineConfig.routesDirectory
    generatedRouteTree := spreadOverride fileConfig.generatedRouteTree inlineConfig.generatedRouteTree
    quoteStyle := spreadOverride fileConfig.quoteStyle inlineConfig.quoteStyle
    semicolons := spreadOverride fileConfig.semicolons inlineConfig.semicolons
    disableTypes := spreadOverride fileConfig.disableTypes inlineConfig.disableTypes
    addExtensions := spreadOverride fileConfig.addExtensions inlineConfig.addExtensions
    disableLogging := spreadOverride fileConfig.disableLogging inlineConfig.disableLogging
    disableManifestGeneration := spreadOverride fileConfig.disableManifestGeneration inlineConfig.disableManifestGeneration
    apiBase := spreadOverride fileConfig.apiBase inlineConfig.apiBase
    routeTreeFileHeader := spreadOverride fileConfig.routeTreeFileHeader inlineConfig.routeTreeFileHeader
    routeTreeFileFooter := spreadOverride fileConfig.routeTreeFileFooter inlineConfig.routeTreeFileFooter
    autoCodeSplitting := spreadOverride fileConfig.autoCodeSplitting inlineConfig.autoCodeSplitting
    indexToken := spreadOverride fileConfig.indexToken inlineConfig.indexToken
    routeToken := spreadOverride fileConfig.routeToken inlineConfig.routeToken
    pathParamsAllowedCharacters := spreadOverride fileConfig.pathParamsAllowedCharacters inlineConfig.pathParamsAllowedCharacters
    customScaffolding := spreadOverride fileConfig.customScaffolding inlineConfig.customScaffolding
    experimental := spreadOverride fileConfig.experimental inlineConfig.experimental }

/-- The spec's stated top-level precedence rule, written from the spec's
words: the resolved value of a field is the inline value when the inline
object supplies one, otherwise the file value when the file supplies
one, otherwise the schema fallback.  Used to compare the merge of
`config.ts` against the specification. -/
def specResolve {β γ : Type} (g : β → γ) (d : γ) (fileVal inlineVal : JsVal β) : γ :=
  match inlineVal with
  | .val b => g b
  | _ => zodWith g d fileVal

/-- POSIX absolute-path test (`path.isAbsolute`): the path starts with a
separator. -/
def isAbsoluteStr (s : String) : Bool :=
  match s.data with
  | '/' :: _ => true
  | _ => false

/-- Split a character list at every `'/'` (the separator scan inside
node's path normalization). -/
def splitSlash : List Char → List (List Char)
  | [] => [[]]
  | c :: cs =>
    match splitSlash cs with
    | [] => [[]]
    | h :: t => if c = '/' then [] :: h :: t else (c :: h) :: t

/-- Join path segments with `'/'`. -/
def joinSegs : List String → String
  | [] => ""
  | [s] => s
  | s :: r :: rest => s ++ "/" ++ joinSegs (r :: rest)

/-- One step of node's `normalizeString`: empty and `"."` segments are
skipped, `".."` removes the previous segment (and is dropped at the root
of an absolute path), anything else is kept. -/
def normStep (acc : List String) (seg : String) : List String :=
  if seg = "" ∨ seg = "." then acc
  else if seg = ".." then acc.dropLast
  else acc ++ [seg]

/-- Node's `normalizeString` over already split segments of an absolute
path. -/
def normalizeSegs (segs : List String) : List String :=
  segs.foldl normStep []

/-- The argument scan of `path.resolve`: arguments are consumed from the
right until an absolute one is found; when none is absolute the working
directory (always an absolute path in node) is prepended. -/
def effectivePaths (cwd : String) (paths : List String) : List String :=
  paths.foldl (fun acc p => if isAbsoluteStr p then [p] else acc ++ [p]) [cwd]

/-- Segments of one path argument. -/
def pathSegs (p : String) : List String :=
  (splitSlash p.data).map String.mk

/-- POSIX `path.resolve(...paths)` relative to the working directory
`cwd`: pick the effective arguments, split them into segments, normalize
`"."`, `".."`, duplicated and trailing separators, and produce an
absolute path. -/
def pathResolve (cwd : String) (paths : List String) : String :=
  "/" ++ joinSegs (normalizeSegs ((effectivePaths cwd paths).flatMap pathSegs))

/-- Node `path.extname`: the extension of the basename, empty when the
basename has no dot or only a leading dot; the special basenames `"."`
and `".."` have no extension. -/
def extname (p : String) : String :=
  let base := (splitSlash p.data).getLastD []
  if base = ['.'] ∨ base = ['.', '.'] then ""
  else
    let pre := base.reverse.takeWhile (fun c => c != '.')
    if pre.length = base.length then ""
    else if pre.length + 1 = base.length then ""
    else String.mk ('.' :: pre.reverse)

/-- The string `s` ends with `suffixStr` (the anchored part of the
regular expressions and existence checks on paths). -/
def strEndsWith (s suffixStr : String) : Prop :=
  suffixStr.data <:+ s.data

instance (s suffixStr : String) : Decidable (strEndsWith s suffixStr) :=
  inferInstanceAs (Decidable (suffixStr.data <:+ s.data))

/-- Remove the last `n` characters. -/
def strDropRight (s : String) (n : Nat) : String :=
  String.mk (s.data.take (s.data.length - n))

/-- The replacement `generatedRouteTree.replace(/\.(ts|tsx)$/, '.js')`:
a trailing `.tsx` or `.ts` becomes `.js`, anything else is unchanged. -/
def replaceTsExt (s : String) : String :=
  if strEndsWith s ".tsx" then strDropRight s 4 ++ ".js"
  else if strEndsWith s ".ts" then strDropRight s 3 ++ ".js"
  else s

/-- The characters removed by JavaScript `String.prototype.trim`
(ECMAScript WhiteSpace and LineTerminator code points). -/
def jsWhitespace (c : Char) : Bool :=
  [' ', '\t', '\n', '\r', '\x0b', '\x0c', '\u00A0', '\uFEFF', '\u1680',
    '\u2000', '\u2001', '\u2002', '\u2003', '\u2004', '\u2005', '\u2006',
    '\u2007', '\u2008', '\u2009', '\u200A', '\u2028', '\u2029', '\u202F',
    '\u205F', '\u3000'].contains c

/-- JavaScript `String.prototype.trim`. -/
def jsTrim (s : String) : String :=
  String.mk (((s.data.dropWhile jsWhitespace).reverse.dropWhile jsWhitespace).reverse)

/-- The ambient filesystem and module loader: which paths exist, what
`JSON.parse(readFileSync(path))` yields for a declarative file, and what
default export the dynamic import of a script module yields.  Loaded
objects are assumed well typed, since no claim concerns shape errors. -/
structure FS where
  fileExists : String → Bool
  readJson : String → PartialConfig
  importDefault : String → PartialConfig

/-- The function `resolveConfigPath` of `config.ts`: the declarative `tsr.config.json`
wins over the script module `tsr.config.js`; `none` when neither
exists. -/
def resolveConfigPath (fs : FS) (cwd : String) (configDirectory : String) : Option String :=
  let jsConfigPath := pathResolve cwd [configDirectory, "tsr.config.js"]
  let jsonConfigPath := pathResolve cwd [configDirectory, "tsr.config.json"]
  if fs.fileExists jsonConfigPath then some jsonConfigPath
  else if fs.fileExists jsConfigPath then some jsConfigPath
  else none

/-- The `readConfig` record of `config.ts`: a loader per known
extension, `none` for any other extension. -/
def readConfig (fs : FS) (ext : String) : Option (String → PartialConfig) :=
  if ext = ".json" then some fs.readJson
  else if ext = ".js" then some fs.importDefault
  else none

/-- Lines 110-129 of `config.ts`: resolve the configuration file, load
it when a loader matches its extension and merge with the inline
overrides, otherwise parse the inline overrides alone. -/
def getConfigMerged (fs : FS) (cwd : String) (inlineConfig : PartialConfig)
    (configDirectory : String) : Config :=
  match resolveConfigPath fs cwd configDirectory with
  | some configFilePath =>
    match readConfig fs (extname configFilePath) with
    | some configLoader =>
      configSchemaParse (mergeSpread (configLoader configFilePath) inlineConfig)
    | none => configSchemaParse inlineConfig
  | none => configSchemaParse inlineConfig

/-- Lines 131-137 of `config.ts`: when types are disabled, rewrite a
typed `generatedRouteTree` extension to `.js`. -/
def applyDisableTypes (config : Config) : Config :=
  if config.disableTypes then
    { config with generatedRouteTree := replaceTsExt config.generatedRouteTree }
  else config

/-- Lines 139-163 of `config.ts`: when the configuration directory is
truthy (a non-empty string), resolve `routesDirectory` and
`generatedRouteTree` against it (directly when it is absolute, through
the working directory when it is relative). -/
def applyPathResolution (cwd : String) (configDirectory : String) (config : Config) : Config :=
  if configDirectory ≠ "" then
    if isAbsoluteStr configDirectory then
      { config with
          routesDirectory := pathResolve cwd [configDirectory, config.routesDirectory]
          generatedRouteTree := pathResolve cwd [configDirectory, config.generatedRouteTree] }
    else
      { config with
          routesDirectory := pathResolve cwd [cwd, configDirectory, config.routesDirectory]
          generatedRouteTree := pathResolve cwd [cwd, configDirectory, config.generatedRouteTree] }
  else config

/-- The deprecated-flag migration error of `validateConfig`. -/
def deprecatedFlagMessage : String :=
  "\n------\n⚠️ ⚠️ ⚠️\nERROR: The \"experimental.enableCodeSplitting\" flag has been made stable and is now \"autoCodeSplitting\". Please update your configuration file to use \"autoCodeSplitting\" instead of \"experimental.enableCodeSplitting\".\n------\n"

/-- The token-collision error of `validateConfig`. -/
def tokenCollisionMessage : String :=
  "The \"indexToken\" and \"routeToken\" options must be different."

/-- The reserved ignore-character error of `validateConfig`. -/
def reservedIgnoreMessage : String :=
  "The \"routeFileIgnorePrefix\" cannot be an underscore (\"_\"). This is a reserved character used to denote a pathless route. Please use a different prefix."

/-- The function `validateConfig` of `config.ts`: the deprecated-flag presence
check (definedness, not truthiness), then the token collision check,
then the reserved ignore-character check (guarded by the truthiness of
the string, that is its non-emptiness); a throw is an `Except.error`. -/
def validateConfig (config : Config) : Except String Config :=
  if (config.experimental.bind Experimental.enableCodeSplitting).isSome then
    Except.error deprecatedFlagMessage
  else if config.indexToken = config.routeToken then
    Except.error tokenCollisionMessage
  else if config.routeFileIgnorePrefix ≠ "" ∧ jsTrim config.routeFileIgnorePrefix = "_" then
    Except.error reservedIgnoreMessage
  else
    Except.ok config

/-- The configuration `getConfig` builds before validation: merge file
and inline configuration, apply the `disableTypes` rewrite, then the
path resolution against the (already defaulted) configuration
directory. -/
def resolvedConfig (fs : FS) (cwd : String) (inlineConfig : PartialConfig)
    (configDirectory : String) : Config :=
  applyPathResolution cwd configDirectory
    (applyDisableTypes (getConfigMerged fs cwd inlineConfig configDirectory))

/-- The function `getConfig` of `config.ts`: default the configuration directory to
the working directory (`process.cwd()`) when the argument is omitted,
build the resolved configuration, validate, and return it (the source
returns the argument `validateConfig` received unchanged, which is the
`Except.ok` payload here). -/
def getConfig (fs : FS) (cwd : String) (inlineConfig : PartialConfig)
    (configDirectory? : Option String) : Except String Config :=
  validateConfig (resolvedConfig fs cwd inlineConfig (configDirectory?.getD cwd))

/-- A raw object with every key missing (the `{}` literal, also the
default value of `getConfig`'s first parameter). -/
def rawAbsent : PartialConfig :=
  { virtualRouteConfig := .absent
    routeFilePrefix := .absent
    routeFileIgnorePrefix := .absent
    routeFileIgnorePattern := .absent
    routesDirectory := .absent
    generatedRouteTree := .absent
    quoteStyle := .absent
    semicolons := .absent
    disableTypes := .absent
    addExtensions := .absent
    disableLogging := .absent
    disableManifestGeneration := .absent
    apiBase := .absent
    routeTreeFileHeader := .absent
    routeTreeFileFooter := .absent
    autoCodeSplitting := .absent
    indexToken := .absent
    routeToken := .absent
    pathParamsAllowedCharacters := .absent
    customScaffolding := .absent
    experimental := .absent }

/-- A filesystem with no configuration file anywhere. -/
def fsEmpty : FS :=
  { fileExists := fun _ => false
    readJson := fun _ => rawAbsent
    importDefault := fun _ => rawAbsent }

/-- A filesystem in which `/cwd` holds both `tsr.config.json` and
`tsr.config.js`. -/
def fsBoth : FS :=
  { fileExists := fun p => p == "/cwd/tsr.config.json" || p == "/cwd/tsr.config.js"
    readJson := fun _ => rawAbsent
    importDefault := fun _ => rawAbsent }

/-- A raw object with every key present but `undefined`. -/
def rawAllUndef : PartialConfig :=
  { virtualRouteConfig := .undef
    routeFilePrefix := .undef
    routeFileIgnorePrefix := .undef
    routeFileIgnorePattern := .undef
    routesDirectory := .undef
    generatedRouteTree := .undef
    quoteStyle := .undef
    semicolons := .undef
    disableTypes := .undef
    addExtensions := .undef
    disableLogging := .undef
    disableManifestGeneration := .undef
    apiBase := .undef
    routeTreeFileHeader := .undef
    routeTreeFileFooter := .undef
    autoCodeSplitting := .undef
    indexToken := .undef
    routeToken := .undef
    pathParamsAllowedCharacters := .undef
    customScaffolding := .undef
    experimental := .undef }

/-- A file-sourced object declaring `routesDirectory: "a"` (plus a few
other defined values). -/
def fileRoutesA : PartialConfig :=
  { rawAbsent with
      routesDirectory := .val "a"
      routeFileIgnorePrefix := .val "#"
      disableLogging := .val true }

/-- Inline overrides declaring `routesDirectory: "b"`. -/
def inlineRoutesB : PartialConfig :=
  { rawAbsent with routesDirectory := .val "b" }

/-- Inline overrides with `disableTypes: true` only. -/
def rawDisable : PartialConfig :=
  { rawAbsent with disableTypes := .val true }

/-- Inline overrides with `disableTypes: true` and a `generatedRouteTree`
whose typed extension is followed by a trailing separator. -/
def rawSlashTree : PartialConfig :=
  { rawAbsent with
      disableTypes := .val true
      generatedRouteTree := .val "./routeTree.gen.ts/" }

/-- Inline overrides carrying the deprecated experimental flag (with the
explicit value `false`) together with colliding tokens. -/
def rawDeprecatedCollide : PartialConfig :=
  { rawAbsent with
      experimental := .val { enableCodeSplitting := .val false }
      indexToken := .val "same"
      routeToken := .val "same" }

/-- Inline overrides carrying both the deprecated experimental flag and
the reserved ignore character. -/
def rawDeprecatedUnderscore : PartialConfig :=
  { rawAbsent with
      routeFileIgnorePrefix := .val "_"
      experimental := .val { enableCodeSplitting := .val false } }

/-- Inline overrides with a whitespace-padded underscore as the ignore
character. -/
def rawUnderscorePad : PartialConfig :=
  { rawAbsent with routeFileIgnorePrefix := .val " _ " }

/-- The configuration produced from pure defaults resolved against the
directory `/cwd`. -/
def cDefaultsCwd : Config :=
  { configSchemaParse rawAbsent with
      routesDirectory := "/cwd/src/routes"
      generatedRouteTree := "/cwd/src/routeTree.gen.ts" }

/-- The configuration produced from pure defaults resolved against the
directory `/proj`. -/
def cDefaultsProj : Config :=
  { configSchemaParse rawAbsent with
      routesDirectory := "/proj/src/routes"
      generatedRouteTree := "/proj/src/routeTree.gen.ts" }

/-- The configuration produced from `rawDisable` resolved against
`/proj`. -/
def cDisableProj : Config :=
  { configSchemaParse rawDisable with
      routesDirectory := "/proj/src/routes"
      generatedRouteTree := "/proj/src/routeTree.gen.js" }

/-- No top-level key of the object is present with the explicit value
`undefined` (a JSON-sourced object always satisfies this; an inline
JavaScript object need not). -/
def NoUndefInline (p : PartialConfig) : Prop :=
  p.virtualRouteConfig ≠ .undef ∧
  p.routeFilePrefix ≠ .undef ∧
  p.routeFileIgnorePrefix ≠ .undef ∧
  p.routeFileIgnorePattern ≠ .undef ∧
  p.routesDirectory ≠ .undef ∧
  p.generatedRouteTree ≠ .undef ∧
  p.quoteStyle ≠ .undef ∧
  p.semicolons ≠ .undef ∧
  p.disableTypes ≠ .undef ∧
  p.addExtensions ≠ .undef ∧
  p.disableLogging ≠ .undef ∧
  p.disableManifestGeneration ≠ .undef ∧
  p.apiBase ≠ .undef ∧
  p.routeTreeFileHeader ≠ .undef ∧
  p.routeTreeFileFooter ≠ .undef ∧
  p.autoCodeSplitting ≠ .undef ∧
  p.indexToken ≠ .undef ∧
  p.routeToken ≠ .undef ∧
  p.pathParamsAllowedCharacters ≠ .undef ∧
  p.customScaffolding ≠ .undef ∧
  p.experimental ≠ .undef

instance (p : PartialConfig) : Decidable (NoUndefInline p) := by
  unfold NoUndefInline
  infer_instance

/-! Helper lemmas about the path model. -/

theorem suffix_append_left {α : Type} {t b : List α} (a : List α) (h : t <:+ b) :
    t <:+ a ++ b := by
  obtain ⟨u, hu⟩ := h
  exact ⟨a ++ u, by rw [List.append_assoc, hu]⟩

theorem splitSlash_ne_nil (cs : List Char) : splitSlash cs ≠ [] := by
  cases cs with
  | nil => simp [splitSlash]
  | cons c cs =>
    cases h : splitSlash cs with
    | nil => simp [splitSlash, h]
    | cons hd tl =>
      simp only [splitSlash, h]
      split <;> simp

theorem splitSlash_no_slash (cs : List Char) (h : '/' ∉ cs) : splitSlash cs = [cs] := by
  induction cs with
  | nil => rfl
  | cons c cs ih =>
    have hc : ¬c = '/' := fun he => h (by rw [he]; exact List.mem_cons_self '/' cs)
    have hcs : '/' ∉ cs := fun hm => h (List.mem_cons_of_mem c hm)
    simp only [splitSlash, ih hcs]
    rw [if_neg hc]

theorem suffix_lastSeg {t : List Char} (ht : t ≠ []) (hslash : '/' ∉ t) :
    ∀ cs : List Char, t <:+ cs → t <:+ (splitSlash cs).getLastD [] := by
  intro cs
  induction cs with
  | nil =>
    intro h
    rw [List.suffix_nil] at h
    exact absurd h ht
  | cons c cs ih =>
    intro h
    rcases List.suffix_cons_iff.mp h with heq | hsuf
    · rw [heq] at hslash
      rw [splitSlash_no_slash _ hslash]
      rw [heq]
      exact List.suffix_rfl
    · have h2 := ih hsuf
      cases hsp : splitSlash cs with
      | nil => exact absurd hsp (splitSlash_ne_nil cs)
      | cons hd tl =>
        rw [hsp] at h2
        simp only [splitSlash, hsp]
        split
        · exact h2
        · cases tl with
          | nil =>
            simp only [List.getLastD] at h2 ⊢
            exact h2.trans (List.suffix_cons c hd)
          | cons x xs =>
            simp only [List.getLastD] at h2 ⊢
            exact h2

theorem normalizeSegs_append (l : List String) (s : String)
    (h1 : ¬(s = "" ∨ s = ".")) (h2 : s ≠ "..") :
    normalizeSegs (l ++ [s]) = normalizeSegs l ++ [s] := by
  unfold normalizeSegs
  rw [List.foldl_append]
  simp only [List.foldl_cons, List.foldl_nil, normStep]
  rw [if_neg h1, if_neg h2]

theorem joinSegs_data_suffix (l : List String) (s : String) :
    s.data <:+ (joinSegs (l ++ [s])).data := by
  induction l with
  | nil => exact List.suffix_rfl
  | cons a l ih =>
    cases l with
    | nil =>
      simp only [List.nil_append, List.cons_append, joinSegs, String.data_append]
      exact List.suffix_append _ _
    | cons b l' =>
      simp only [List.cons_append, joinSegs, String.data_append] at ih ⊢
      exact suffix_append_left _ ih

theorem effectivePaths_append (cwd : String) (ps : List String) (s : String) :
    ∃ E, effectivePaths cwd (ps ++ [s]) = E ++ [s] := by
  unfold effectivePaths
  rw [List.foldl_append]
  simp only [List.foldl_cons, List.foldl_nil]
  cases h : isAbsoluteStr s with
  | true => exact ⟨[], by simp [h]⟩
  | false =>
    refine ⟨ps.foldl (fun acc p => if isAbsoluteStr p then [p] else acc ++ [p]) [cwd], ?_⟩
    simp [h]

theorem eq_dropLast_append_getLastD {α : Type} (l : List α) (h : l ≠ []) :
    ∀ d : α, l = l.dropLast ++ [l.getLastD d] := by
  induction l with
  | nil => exact absurd rfl h
  | cons a l ih =>
    intro d
    cases l with
    | nil => rfl
    | cons b l' =>
      have := ih (by simp) a
      simp only [List.dropLast_cons₂, List.getLastD_cons, List.cons_append]
      rw [List.getLastD_cons] at this
      exact congrArg (a :: ·) this

theorem pathResolve_data_suffix (cwd : String) (ps : List String) (s : String)
    (t : List Char) (hlen : 3 ≤ t.length) (hslash : '/' ∉ t) (hsuf : t <:+ s.data) :
    t <:+ (pathResolve cwd (ps ++ [s])).data := by
  have ht : t ≠ [] := by
    intro he
    rw [he] at hlen
    exact absurd hlen (by decide)
  obtain ⟨E, hE⟩ := effectivePaths_append cwd ps s
  have hne := splitSlash_ne_nil s.data
  have htu : t <:+ (splitSlash s.data).getLastD [] := suffix_lastSeg ht hslash s.data hsuf
  have hulen : 3 ≤ ((splitSlash s.data).getLastD []).length :=
    le_trans hlen (List.IsSuffix.length_le htu)
  have hdecomp := eq_dropLast_append_getLastD (splitSlash s.data) hne []
  have hseg : pathSegs s =
      (splitSlash s.data).dropLast.map String.mk ++ [String.mk ((splitSlash s.data).getLastD [])] := by
    unfold pathSegs
    conv_lhs => rw [hdecomp]
    rw [List.map_append]
    rfl
  have hu1 : ¬(String.mk ((splitSlash s.data).getLastD []) = "" ∨
      String.mk ((splitSlash s.data).getLastD []) = ".") := by
    rintro (he | he)
    · have hdata : (splitSlash s.data).getLastD [] = ([] : List Char) := congrArg String.data he
      rw [hdata] at hulen
      exact absurd hulen (by decide)
    · have hdata : (splitSlash s.data).getLastD [] = ['.'] := congrArg String.data he
      rw [hdata] at hulen
      exact absurd hulen (by decide)
  have hu2 : String.mk ((splitSlash s.data).getLastD []) ≠ ".." := by
    intro he
    have hdata : (splitSlash s.data).getLastD [] = ['.', '.'] := congrArg String.data he
    rw [hdata] at hulen
    exact absurd hulen (by decide)
  unfold pathResolve
  rw [hE, List.flatMap_append]
  have hsegs : E.flatMap pathSegs ++ List.flatMap [s] pathSegs =
      (E.flatMap pathSegs ++ (splitSlash s.data).dropLast.map String.mk) ++
        [String.mk ((splitSlash s.data).getLastD [])] := by
    rw [List.append_assoc]
    congr 1
    simp only [List.flatMap_cons, List.flatMap_nil, List.append_nil]
    exact hseg
  rw [hsegs, normalizeSegs_append _ _ hu1 hu2]
  have hj := joinSegs_data_suffix
    (normalizeSegs (E.flatMap pathSegs ++ (splitSlash s.data).dropLast.map String.mk))
    (String.mk ((splitSlash s.data).getLastD []))
  rw [String.data_append]
  exact suffix_append_left _ (htu.trans hj)

theorem isAbsoluteStr_pathResolve (cwd : String) (ps : List String) :
    isAbsoluteStr (pathResolve cwd ps) = true := rfl

theorem isAbsoluteStr_ne_empty {s : String} (h : isAbsoluteStr s = true) : s ≠ "" := by
  intro he
  rw [he] at h
  exact absurd h (by decide)

theorem getLast?_of_suffix {t l : List Char} (h : t <:+ l) (hne : t ≠ []) :
    l.getLast? = t.getLast? := by
  obtain ⟨u, hu⟩ := h
  rw [← hu, List.getLast?_append]
  cases ht : t.getLast? with
  | none => exact absurd (List.getLast?_eq_none_iff.mp ht) hne
  | some a => rfl

theorem configPaths_ne (cwd dir : String) :
    pathResolve cwd [dir, "tsr.config.json"] ≠ pathResolve cwd [dir, "tsr.config.js"] := by
  intro he
  have hjson : ("tsr.config.json").data <:+ (pathResolve cwd ([dir] ++ ["tsr.config.json"])).data :=
    pathResolve_data_suffix cwd [dir] "tsr.config.json" _ (by decide) (by decide) List.suffix_rfl
  have hjs : ("tsr.config.js").data <:+ (pathResolve cwd ([dir] ++ ["tsr.config.js"])).data :=
    pathResolve_data_suffix cwd [dir] "tsr.config.js" _ (by decide) (by decide) List.suffix_rfl
  have h1 := getLast?_of_suffix hjson (by decide)
  have h2 := getLast?_of_suffix hjs (by decide)
  have he' : (pathResolve cwd ([dir] ++ ["tsr.config.json"])).data =
      (pathResolve cwd ([dir] ++ ["tsr.config.js"])).data := congrArg String.data he
  rw [he', h2] at h1
  exact absurd h1 (by decide)

/-! Helper lemmas about the configuration pipeline. -/

theorem spread_spec {β γ : Type} (g : β → γ) (d : γ) (fileVal inlineVal : JsVal β)
    (h : inlineVal ≠ .undef) :
    zodWith g d (spreadOverride fileVal inlineVal) = specResolve g d fileVal inlineVal := by
  cases inlineVal with
  | val b => rfl
  | absent => rfl
  | undef => exact absurd rfl h

theorem replaceTsExt_endsWith_js (s : String)
    (h : strEndsWith s ".ts" ∨ strEndsWith s ".tsx") :
    strEndsWith (replaceTsExt s) ".js" := by
  unfold replaceTsExt
  split
  · show (".js").data <:+ (strDropRight s 4 ++ ".js").data
    rw [String.data_append]
    exact List.suffix_append _ _
  · split
    · show (".js").data <:+ (strDropRight s 3 ++ ".js").data
      rw [String.data_append]
      exact List.suffix_append _ _
    · rename_i htsx hts
      rcases h with h | h
      · exact absurd h hts
      · exact absurd h htsx

theorem applyDisableTypes_of_true {c : Config} (h : c.disableTypes = true) :
    applyDisableTypes c = { c with generatedRouteTree := replaceTsExt c.generatedRouteTree } := by
  unfold applyDisableTypes
  rw [if_pos h]

theorem applyDisableTypes_experimental (c : Config) :
    (applyDisableTypes c).experimental = c.experimental := by
  unfold applyDisableTypes
  split <;> rfl

theorem applyDisableTypes_routeFileIgnorePrefix (c : Config) :
    (applyDisableTypes c).routeFileIgnorePrefix = c.routeFileIgnorePrefix := by
  unfold applyDisableTypes
  split <;> rfl

theorem applyDisableTypes_indexToken (c : Config) :
    (applyDisableTypes c).indexToken = c.indexToken := by
  unfold applyDisableTypes
  split <;> rfl

theorem applyDisableTypes_routeToken (c : Config) :
    (applyDisableTypes c).routeToken = c.routeToken := by
  unfold applyDisableTypes
  split <;> rfl

theorem applyDisableTypes_routesDirectory (c : Config) :
    (applyDisableTypes c).routesDirectory = c.routesDirectory := by
  unfold applyDisableTypes
  split <;> rfl

theorem applyPathResolution_experimental (cwd dir : String) (c : Config) :
    (applyPathResolution cwd dir c).experimental = c.experimental := by
  unfold applyPathResolution
  split
  · split <;> rfl
  · rfl

theorem applyPathResolution_routeFileIgnorePrefix (cwd dir : String) (c : Config) :
    (applyPathResolution cwd dir c).routeFileIgnorePrefix = c.routeFileIgnorePrefix := by
  unfold applyPathResolution
  split
  · split <;> rfl
  · rfl

theorem applyPathResolution_indexToken (cwd dir : String) (c : Config) :
    (applyPathResolution cwd dir c).indexToken = c.indexToken := by
  unfold applyPathResolution
  split
  · split <;> rfl
  · rfl

theorem applyPathResolution_routeToken (cwd dir : String) (c : Config) :
    (applyPathResolution cwd dir c).routeToken = c.routeToken := by
  unfold applyPathResolution
  split
  · split <;> rfl
  · rfl

theorem applyPathResolution_grt_js (cwd dir : String) (c : Config)
    (h : strEndsWith c.generatedRouteTree ".js") :
    strEndsWith (applyPathResolution cwd dir c).generatedRouteTree ".js" := by
  unfold applyPathResolution
  split
  · split
    · exact pathResolve_data_suffix cwd [dir] c.generatedRouteTree _ (by decide) (by decide) h
    · exact pathResolve_data_suffix cwd [cwd, dir] c.generatedRouteTree _ (by decide) (by decide) h
  · exact h

theorem applyPathResolution_of_ne {cwd dir : String} (c : Config) (hne : dir ≠ "") :
    applyPathResolution cwd dir c =
      if isAbsoluteStr dir then
        { c with
            routesDirectory := pathResolve cwd [dir, c.routesDirectory]
            generatedRouteTree := pathResolve cwd [dir, c.generatedRouteTree] }
      else
        { c with
            routesDirectory := pathResolve cwd [cwd, dir, c.routesDirectory]
            generatedRouteTree := pathResolve cwd [cwd, dir, c.generatedRouteTree] } := by
  unfold applyPathResolution
  rw [if_pos hne]

theorem applyPathResolution_absolute (cwd dir : String) (c : Config) (hne : dir ≠ "") :
    isAbsoluteStr (applyPathResolution cwd dir c).routesDirectory = true ∧
    isAbsoluteStr (applyPathResolution cwd dir c).generatedRouteTree = true := by
  rw [applyPathResolution_of_ne c hne]
  split <;> exact ⟨isAbsoluteStr_pathResolve _ _, isAbsoluteStr_pathResolve _ _⟩

theorem validateConfig_ok (c c' : Config) (h : validateConfig c = Except.ok c') :
    c' = c ∧ jsTrim c'.routeFileIgnorePrefix ≠ "_" := by
  unfold validateConfig at h
  split at h
  · exact Except.noConfusion h
  · split at h
    · exact Except.noConfusion h
    · split at h
      · exact Except.noConfusion h
      · rename_i hcond
        have hc : c = c' := by
          have := Except.ok.inj h
          exact this
        refine ⟨hc.symm, ?_⟩
        rw [← hc]
        intro heq
        by_cases hpre : c.routeFileIgnorePrefix = ""
        · rw [hpre] at heq
          exact absurd heq (by decide)
        · exact hcond ⟨hpre, heq⟩

theorem zodWith_undef {β γ : Type} (g : β → γ) (d : γ) : zodWith g d .undef = d := rfl

theorem spreadOverride_undef {α : Type} (f : JsVal α) : spreadOverride f .undef = .undef := rfl

/-! Theorems for the claims. -/

/-- C1: the merge of a loaded file object with inline overrides is a
shallow top-level merge with precedence inline > file > schema default:
every top-level field of the parsed result equals `specResolve` (the
spec's precedence rule) of the two raw fields, provided neither object
smuggles an explicitly `undefined` value under a present key (the case
the spec's notion of "supplied" does not contemplate; only the inline
side can distinguish it, so only it is constrained). -/
theorem c1_merge_precedence (fileConfig inlineConfig : PartialConfig)
    (h : NoUndefInline inlineConfig) :
    (configSchemaParse (mergeSpread fileConfig inlineConfig)).virtualRouteConfig =
      specResolve some none fileConfig.virtualRouteConfig inlineConfig.virtualRouteConfig ∧
    (configSchemaParse (mergeSpread fileConfig inlineConfig)).routeFilePrefix =
      specResolve some none fileConfig.routeFilePrefix inlineConfig.routeFilePrefix ∧
    (configSchemaParse (mergeSpread fileConfig inlineConfig)).routeFileIgnorePrefix =
      specResolve id "-" fileConfig.routeFileIgnorePrefix inlineConfig.routeFileIgnorePrefix ∧
    (configSchemaParse (mergeSpread fileConfig inlineConfig)).routeFileIgnorePattern =
      specResolve some none fileConfig.routeFileIgnorePattern inlineConfig.routeFileIgnorePattern ∧
    (configSchemaParse (mergeSpread fileConfig inlineConfig)).routesDirectory =
      specResolve id "./src/routes" fileConfig.routesDirectory inlineConfig.routesDirectory ∧
    (configSchemaParse (mergeSpread fileConfig inlineConfig)).generatedRouteTree =
      specResolve id "./src/routeTree.gen.ts" fileConfig.generatedRouteTree
        inlineConfig.generatedRouteTree ∧
    (configSchemaParse (mergeSpread fileConfig inlineConfig)).quoteStyle =
      specResolve id QuoteStyle.single fileConfig.quoteStyle inlineConfig.quoteStyle ∧
    (configSchemaParse (mergeSpread fileConfig inlineConfig)).semicolons =
      specResolve id false fileConfig.semicolons inlineConfig.semicolons ∧
    (configSchemaParse (mergeSpread fileConfig inlineConfig)).disableTypes =
      specResolve id false fileConfig.disableTypes inlineConfig.disableTypes ∧
    (configSchemaParse (mergeSpread fileConfig inlineConfig)).addExtensions =
      specResolve id false fileConfig.addExtensions inlineConfig.addExtensions ∧
    (configSchemaParse (mergeSpread fileConfig inlineConfig)).disableLogging =
      specResolve id false fileConfig.disableLogging inlineConfig.disableLogging ∧
    (configSchemaParse (mergeSpread fileConfig inlineConfig)).disableManifestGeneration =
      specResolve id false fileConfig.disableManifestGeneration
        inlineConfig.disableManifestGeneration ∧
    (configSchemaParse (mergeSpread fileConfig inlineConfig)).apiBase =
      specResolve id "/api" fileConfig.apiBase inlineConfig.apiBase ∧
    (configSchemaParse (mergeSpread fileConfig inlineConfig)).routeTreeFileHeader =
      specResolve id defaultRouteTreeFileHeader fileConfig.routeTreeFileHeader
        inlineConfig.routeTreeFileHeader ∧
    (configSchemaParse (mergeSpread fileConfig inlineConfig)).routeTreeFileFooter =
      specResolve id [] fileConfig.routeTreeFileFooter inlineConfig.routeTreeFileFooter ∧
    (configSchemaParse (mergeSpread fileConfig inlineConfig)).autoCodeSplitting =
      specResolve some none fileConfig.autoCodeSplitting inlineConfig.autoCodeSplitting ∧
    (configSchemaParse (mergeSpread fileConfig inlineConfig)).indexToken =
      specResolve id "index" fileConfig.indexToken inlineConfig.indexToken ∧
    (configSchemaParse (mergeSpread fileConfig inlineConfig)).routeToken =
      specResolve id "route" fileConfig.routeToken inlineConfig.routeToken ∧
    (configSchemaParse (mergeSpread fileConfig inlineConfig)).pathParamsAllowedCharacters =
      specResolve some none fileConfig.pathParamsAllowedCharacters
        inlineConfig.pathParamsAllowedCharacters ∧
    (configSchemaParse (mergeSpread fileConfig inlineConfig)).customScaffolding =
      specResolve parseScaffolding defaultTemplate fileConfig.customScaffolding
        inlineConfig.customScaffolding ∧
    (configSchemaParse (mergeSpread fileConfig inlineConfig)).experimental =
      specResolve (fun r => some (parseExperimental r)) none fileConfig.experimental
        inlineConfig.experimental := by
  obtain ⟨h1, h2, h3, h4, h5, h6, h7, h8, h9, h10, h11, h12, h13, h14, h15, h16, h17, h18,
    h19, h20, h21⟩ := h
  exact ⟨spread_spec some none _ _ h1, spread_spec some none _ _ h2,
    spread_spec id "-" _ _ h3, spread_spec some none _ _ h4,
    spread_spec id "./src/routes" _ _ h5, spread_spec id "./src/routeTree.gen.ts" _ _ h6,
    spread_spec id QuoteStyle.single _ _ h7, spread_spec id false _ _ h8,
    spread_spec id false _ _ h9, spread_spec id false _ _ h10,
    spread_spec id false _ _ h11, spread_spec id false _ _ h12,
    spread_spec id "/api" _ _ h13, spread_spec id defaultRouteTreeFileHeader _ _ h14,
    spread_spec id [] _ _ h15, spread_spec some none _ _ h16,
    spread_spec id "index" _ _ h17, spread_spec id "route" _ _ h18,
    spread_spec some none _ _ h19, spread_spec parseScaffolding defaultTemplate _ _ h20,
    spread_spec (fun r => some (parseExperimental r)) none _ _ h21⟩

/-- C1 witness: a file declaring `routesDirectory: "a"` merged with
inline overrides declaring `routesDirectory: "b"` resolves to `"b"`; a
field only the file supplies keeps the file value; a field neither
supplies gets its schema default. -/
theorem c1_merge_precedence_witness :
    (configSchemaParse (mergeSpread fileRoutesA inlineRoutesB)).routesDirectory = "b" ∧
    (configSchemaParse (mergeSpread fileRoutesA inlineRoutesB)).disableLogging = true ∧
    (configSchemaParse (mergeSpread fileRoutesA inlineRoutesB)).apiBase = "/api" :=
  ⟨(c1_merge_precedence fileRoutesA inlineRoutesB (by decide)).2.2.2.2.1,
   (c1_merge_precedence fileRoutesA inlineRoutesB (by decide)).2.2.2.2.2.2.2.2.2.2.1,
   (c1_merge_precedence fileRoutesA inlineRoutesB (by decide)).2.2.2.2.2.2.2.2.2.2.2.2.1⟩

/-- C10: an inline key present with the explicit value `undefined` still
overrides in the spread, so the file value for that field is discarded
and the schema default (or `none` for optional fields) is applied. -/
theorem c10_undefined_inline_override (fileConfig inlineConfig : PartialConfig) :
    (inlineConfig.virtualRouteConfig = .undef →
      (configSchemaParse (mergeSpread fileConfig inlineConfig)).virtualRouteConfig = none) ∧
    (inlineConfig.routeFilePrefix = .undef →
      (configSchemaParse (mergeSpread fileConfig inlineConfig)).routeFilePrefix = none) ∧
    (inlineConfig.routeFileIgnorePrefix = .undef →
      (configSchemaParse (mergeSpread fileConfig inlineConfig)).routeFileIgnorePrefix = "-") ∧
    (inlineConfig.routeFileIgnorePattern = .undef →
      (configSchemaParse (mergeSpread fileConfig inlineConfig)).routeFileIgnorePattern = none) ∧
    (inlineConfig.routesDirectory = .undef →
      (configSchemaParse (mergeSpread fileConfig inlineConfig)).routesDirectory =
        "./src/routes") ∧
    (inlineConfig.generatedRouteTree = .undef →
      (configSchemaParse (mergeSpread fileConfig inlineConfig)).generatedRouteTree =
        "./src/routeTree.gen.ts") ∧
    (inlineConfig.quoteStyle = .undef →
      (configSchemaParse (mergeSpread fileConfig inlineConfig)).quoteStyle =
        QuoteStyle.single) ∧
    (inlineConfig.semicolons = .undef →
      (configSchemaParse (mergeSpread fileConfig inlineConfig)).semicolons = false) ∧
    (inlineConfig.disableTypes = .undef →
      (configSchemaParse (mergeSpread fileConfig inlineConfig)).disableTypes = false) ∧
    (inlineConfig.addExtensions = .undef →
      (configSchemaParse (mergeSpread fileConfig inlineConfig)).addExtensions = false) ∧
    (inlineConfig.disableLogging = .undef →
      (configSchemaParse (mergeSpread fileConfig inlineConfig)).disableLogging = false) ∧
    (inlineConfig.disableManifestGeneration = .undef →
      (configSchemaParse (mergeSpread fileConfig inlineConfig)).disableManifestGeneration =
        false) ∧
    (inlineConfig.apiBase = .undef →
      (configSchemaParse (mergeSpread fileConfig inlineConfig)).apiBase = "/api") ∧
    (inlineConfig.routeTreeFileHeader = .undef →
      (configSchemaParse (mergeSpread fileConfig inlineConfig)).routeTreeFileHeader =
        defaultRouteTreeFileHeader) ∧
    (inlineConfig.routeTreeFileFooter = .undef →
      (configSchemaParse (mergeSpread fileConfig inlineConfig)).routeTreeFileFooter = []) ∧
    (inlineConfig.autoCodeSplitting = .undef →
      (configSchemaParse (mergeSpread fileConfig inlineConfig)).autoCodeSplitting = none) ∧
    (inlineConfig.indexToken = .undef →
      (configSchemaParse (mergeSpread fileConfig inlineConfig)).indexToken = "index") ∧
    (inlineConfig.routeToken = .undef →
      (configSchemaParse (mergeSpread fileConfig inlineConfig)).routeToken = "route") ∧
    (inlineConfig.pathParamsAllowedCharacters = .undef →
      (configSchemaParse (mergeSpread fileConfig inlineConfig)).pathParamsAllowedCharacters =
        none) ∧
    (inlineConfig.customScaffolding = .undef →
      (configSchemaParse (mergeSpread fileConfig inlineConfig)).customScaffolding =
        defaultTemplate) ∧
    (inlineConfig.experimental = .undef →
      (configSchemaParse (mergeSpread fileConfig inlineConfig)).experimental = none) := by
  refine ⟨fun h => ?_, fun h => ?_, fun h => ?_, fun h => ?_, fun h => ?_, fun h => ?_,
    fun h => ?_, fun h => ?_, fun h => ?_, fun h => ?_, fun h => ?_, fun h => ?_,
    fun h => ?_, fun h => ?_, fun h => ?_, fun h => ?_, fun h => ?_, fun h => ?_,
    fun h => ?_, fun h => ?_, fun h => ?_⟩
  all_goals
    simp only [configSchemaParse, mergeSpread, h, spreadOverride_undef, zodWith_undef,
      zodOptional, zodDefault]

/-- C10 witness: inline keys that are present but `undefined` discard
the file's `routesDirectory` and `routeFileIgnorePrefix` values in
favour of the schema defaults. -/
theorem c10_undefined_inline_witness :
    (configSchemaParse (mergeSpread fileRoutesA rawAllUndef)).routesDirectory =
      "./src/routes" ∧
    (configSchemaParse (mergeSpread fileRoutesA rawAllUndef)).routeFileIgnorePrefix = "-" :=
  ⟨(c10_undefined_inline_override fileRoutesA rawAllUndef).2.2.2.2.1 rfl,
   (c10_undefined_inline_override fileRoutesA rawAllUndef).2.2.1 rfl⟩

/-- C2: for every directory, `resolveConfigPath` returns the absolute
path of `tsr.config.json` when that file exists (even if `tsr.config.js`
also exists), otherwise the absolute path of `tsr.config.js` when that
exists, otherwise `none`; with both present it never returns the
script-module path. -/
theorem c2_config_path_priority (fs : FS) (cwd configDirectory : String) :
    (fs.fileExists (pathResolve cwd [configDirectory, "tsr.config.json"]) = true →
      resolveConfigPath fs cwd configDirectory =
        some (pathResolve cwd [configDirectory, "tsr.config.json"])) ∧
    (fs.fileExists (pathResolve cwd [configDirectory, "tsr.config.json"]) = false →
      fs.fileExists (pathResolve cwd [configDirectory, "tsr.config.js"]) = true →
      resolveConfigPath fs cwd configDirectory =
        some (pathResolve cwd [configDirectory, "tsr.config.js"])) ∧
    (fs.fileExists (pathResolve cwd [configDirectory, "tsr.config.json"]) = false →
      fs.fileExists (pathResolve cwd [configDirectory, "tsr.config.js"]) = false →
      resolveConfigPath fs cwd configDirectory = none) ∧
    (∀ p, resolveConfigPath fs cwd configDirectory = some p → isAbsoluteStr p = true) ∧
    (fs.fileExists (pathResolve cwd [configDirectory, "tsr.config.json"]) = true →
      resolveConfigPath fs cwd configDirectory ≠
        some (pathResolve cwd [configDirectory, "tsr.config.js"])) := by
  refine ⟨?_, ?_, ?_, ?_, ?_⟩
  · intro h1
    simp [resolveConfigPath, h1]
  · intro h1 h2
    simp [resolveConfigPath, h1, h2]
  · intro h1 h2
    simp [resolveConfigPath, h1, h2]
  · intro p hp
    simp only [resolveConfigPath] at hp
    split at hp
    · rw [← Option.some.inj hp]
      exact isAbsoluteStr_pathResolve _ _
    · split at hp
      · rw [← Option.some.inj hp]
        exact isAbsoluteStr_pathResolve _ _
      · exact Option.noConfusion hp
  · intro h1 hcontra
    have hres : resolveConfigPath fs cwd configDirectory =
        some (pathResolve cwd [configDirectory, "tsr.config.json"]) := by
      simp [resolveConfigPath, h1]
    rw [hres] at hcontra
    exact configPaths_ne cwd configDirectory (Option.some.inj hcontra)

/-- C2 witness: in a directory holding both configuration files, the
declarative file wins and the script-module path is never returned. -/
theorem c2_config_path_priority_witness :
    fsBoth.fileExists (pathResolve "/cwd" ["/cwd", "tsr.config.json"]) = true ∧
    fsBoth.fileExists (pathResolve "/cwd" ["/cwd", "tsr.config.js"]) = true ∧
    resolveConfigPath fsBoth "/cwd" "/cwd" =
      some (pathResolve "/cwd" ["/cwd", "tsr.config.json"]) ∧
    resolveConfigPath fsBoth "/cwd" "/cwd" ≠
      some (pathResolve "/cwd" ["/cwd", "tsr.config.js"]) :=
  ⟨by decide, by decide,
    (c2_config_path_priority fsBoth "/cwd" "/cwd").1 (by decide),
    (c2_config_path_priority fsBoth "/cwd" "/cwd").2.2.2.2 (by decide)⟩

/-- C6: whenever the merged configuration carries any defined value
under `experimental.enableCodeSplitting` (explicit `false` included),
`getConfig` fails with the deprecated-flag migration error — before any
other validation check, since nothing else about the configuration is
assumed. -/
theorem c6_deprecated_flag_first (fs : FS) (cwd : String) (inlineConfig : PartialConfig)
    (configDirectory? : Option String)
    (h : ((getConfigMerged fs cwd inlineConfig (configDirectory?.getD cwd)).experimental.bind
        Experimental.enableCodeSplitting).isSome = true) :
    getConfig fs cwd inlineConfig configDirectory? = Except.error deprecatedFlagMessage := by
  unfold getConfig resolvedConfig validateConfig
  rw [applyPathResolution_experimental, applyDisableTypes_experimental]
  rw [if_pos h]

/-- C6 witness: an inline configuration with
`experimental.enableCodeSplitting: false` and colliding tokens still
fails with the deprecated-flag error, showing both that definedness (not
truthiness) triggers it and that it precedes the token-collision
check. -/
theorem c6_deprecated_flag_witness :
    getConfig fsEmpty "/cwd" rawDeprecatedCollide none = Except.error deprecatedFlagMessage :=
  c6_deprecated_flag_first fsEmpty "/cwd" rawDeprecatedCollide none (by decide)

/-- C7: when the directory holds neither `tsr.config.json` nor
`tsr.config.js`, `resolveConfigPath` reports no configuration file, and
`getConfig` proceeds from the schema defaults merged only with the
inline overrides (`configSchemaParse inlineConfig`), skipping the
file-loading step. -/
theorem c7_no_config_file (fs : FS) (cwd : String) (inlineConfig : PartialConfig)
    (configDirectory? : Option String)
    (hjson : fs.fileExists
      (pathResolve cwd [configDirectory?.getD cwd, "tsr.config.json"]) = false)
    (hjs : fs.fileExists
      (pathResolve cwd [configDirectory?.getD cwd, "tsr.config.js"]) = false) :
    resolveConfigPath fs cwd (configDirectory?.getD cwd) = none ∧
    getConfig fs cwd inlineConfig configDirectory? =
      validateConfig (applyPathResolution cwd (configDirectory?.getD cwd)
        (applyDisableTypes (configSchemaParse inlineConfig))) := by
  have hres : resolveConfigPath fs cwd (configDirectory?.getD cwd) = none := by
    simp [resolveConfigPath, hjson, hjs]
  refine ⟨hres, ?_⟩
  unfold getConfig resolvedConfig getConfigMerged
  rw [hres]

/-- C7 witness: the empty filesystem with default arguments. -/
theorem c7_no_config_file_witness :
    resolveConfigPath fsEmpty "/cwd" ((none : Option String).getD "/cwd") = none ∧
    getConfig fsEmpty "/cwd" rawAbsent none =
      validateConfig (applyPathResolution "/cwd" ((none : Option String).getD "/cwd")
        (applyDisableTypes (configSchemaParse rawAbsent))) :=
  c7_no_config_file fsEmpty "/cwd" rawAbsent none rfl rfl

/-- C3 counterexample: with `disableTypes: true` and the user-supplied
`generatedRouteTree: "./routeTree.gen.ts/"`, the trailing separator
defeats the anchored rewrite, path resolution then strips it, and the
returned configuration's `generatedRouteTree` has the typed extension
`.ts` — refuting the claim that this holds for every value. -/
theorem c3_typed_ext_counterexample :
    (getConfig fsEmpty "/cwd" rawSlashTree (some "/proj")).map
      (fun c => extname c.generatedRouteTree) = Except.ok ".ts" ∧
    (getConfig fsEmpty "/cwd" rawSlashTree (some "/proj")).map Config.disableTypes =
      Except.ok true ∧
    (getConfig fsEmpty "/cwd" rawSlashTree (some "/proj")).map Config.generatedRouteTree =
      Except.ok "/proj/routeTree.gen.ts" :=
  ⟨rfl, rfl, rfl⟩

/-- C3 amended: with `disableTypes` true, every merged
`generatedRouteTree` that (as a string) ends in the typed extension
`.ts` or `.tsx` — the default included — is rewritten so that the
returned configuration's `generatedRouteTree` ends in `.js`; values
whose typed extension is not trailing (for example followed by a
separator) are not covered. -/
theorem c3_rewrite_amended (fs : FS) (cwd : String) (inlineConfig : PartialConfig)
    (configDirectory? : Option String)
    (hdis : (getConfigMerged fs cwd inlineConfig
      (configDirectory?.getD cwd)).disableTypes = true)
    (hext : strEndsWith (getConfigMerged fs cwd inlineConfig
        (configDirectory?.getD cwd)).generatedRouteTree ".ts" ∨
      strEndsWith (getConfigMerged fs cwd inlineConfig
        (configDirectory?.getD cwd)).generatedRouteTree ".tsx") :
    ∀ c, getConfig fs cwd inlineConfig configDirectory? = Except.ok c →
      strEndsWith c.generatedRouteTree ".js" := by
  intro c hok
  unfold getConfig at hok
  obtain ⟨hc, -⟩ := validateConfig_ok _ _ hok
  rw [hc]
  unfold resolvedConfig
  apply applyPathResolution_grt_js
  rw [applyDisableTypes_of_true hdis]
  exact replaceTsExt_endsWith_js _ hext

/-- C3 amended witness: the default tree with `disableTypes: true`
resolves to a `.js` path. -/
theorem c3_rewrite_amended_witness : strEndsWith cDisableProj.generatedRouteTree ".js" :=
  c3_rewrite_amended fsEmpty "/cwd" rawDisable (some "/proj") (by decide)
    (Or.inl (by decide)) cDisableProj rfl

/-- C4 counterexample: with no directory argument the declared relative
paths do not survive — they are resolved against the working directory
into absolute paths. -/
theorem c4_absolute_counterexample :
    (getConfig fsEmpty "/cwd" rawAbsent none).map Config.routesDirectory =
      Except.ok "/cwd/src/routes" ∧
    (getConfig fsEmpty "/cwd" rawAbsent none).map Config.generatedRouteTree =
      Except.ok "/cwd/src/routeTree.gen.ts" ∧
    ("/cwd/src/routes" : String) ≠ "./src/routes" ∧
    ("/cwd/src/routeTree.gen.ts" : String) ≠ "./src/routeTree.gen.ts" :=
  ⟨rfl, rfl, by decide, by decide⟩

/-- C4 amended: when no directory argument is supplied, `getConfig`
behaves exactly as if the working directory had been supplied, and the
returned `routesDirectory` and `generatedRouteTree` are absolute
(resolved against the working directory) rather than left as
declared. -/
theorem c4_default_directory_amended (fs : FS) (cwd : String) (inlineConfig : PartialConfig)
    (habs : isAbsoluteStr cwd = true) :
    getConfig fs cwd inlineConfig none = getConfig fs cwd inlineConfig (some cwd) ∧
    ∀ c, getConfig fs cwd inlineConfig none = Except.ok c →
      isAbsoluteStr c.routesDirectory = true ∧ isAbsoluteStr c.generatedRouteTree = true := by
  refine ⟨rfl, ?_⟩
  intro c hok
  unfold getConfig at hok
  obtain ⟨hc, -⟩ := validateConfig_ok _ _ hok
  rw [hc]
  unfold resolvedConfig
  exact applyPathResolution_absolute cwd _ _ (isAbsoluteStr_ne_empty habs)

/-- C4 amended witness: defaults with no directory argument. -/
theorem c4_default_directory_witness :
    getConfig fsEmpty "/cwd" rawAbsent none = getConfig fsEmpty "/cwd" rawAbsent (some "/cwd") ∧
    isAbsoluteStr cDefaultsCwd.routesDirectory = true ∧
    isAbsoluteStr cDefaultsCwd.generatedRouteTree = true :=
  ⟨(c4_default_directory_amended fsEmpty "/cwd" rawAbsent (by decide)).1,
   ((c4_default_directory_amended fsEmpty "/cwd" rawAbsent (by decide)).2 cDefaultsCwd rfl).1,
   ((c4_default_directory_amended fsEmpty "/cwd" rawAbsent (by decide)).2 cDefaultsCwd rfl).2⟩

/-- C5 counterexample: the empty string is a supplied (relative)
directory argument, yet — being falsy — it skips path resolution
entirely, and the returned paths stay relative. -/
theorem c5_empty_dir_counterexample :
    (getConfig fsEmpty "/cwd" rawAbsent (some "")).map Config.routesDirectory =
      Except.ok "./src/routes" ∧
    (getConfig fsEmpty "/cwd" rawAbsent (some "")).map Config.generatedRouteTree =
      Except.ok "./src/routeTree.gen.ts" ∧
    isAbsoluteStr "./src/routes" = false :=
  ⟨rfl, rfl, by decide⟩

/-- C5 amended: for every non-empty supplied directory, an absolute
directory anchors both paths directly, a relative one is itself
anchored at the working directory, and the two returned paths are
absolute. -/
theorem c5_resolution_amended (fs : FS) (cwd dir : String) (inlineConfig : PartialConfig)
    (hne : dir ≠ "") :
    ∀ c, getConfig fs cwd inlineConfig (some dir) = Except.ok c →
      (isAbsoluteStr dir = true →
        c.routesDirectory = pathResolve cwd [dir,
          (getConfigMerged fs cwd inlineConfig dir).routesDirectory] ∧
        c.generatedRouteTree = pathResolve cwd [dir,
          (applyDisableTypes (getConfigMerged fs cwd inlineConfig dir)).generatedRouteTree]) ∧
      (isAbsoluteStr dir = false →
        c.routesDirectory = pathResolve cwd [cwd, dir,
          (getConfigMerged fs cwd inlineConfig dir).routesDirectory] ∧
        c.generatedRouteTree = pathResolve cwd [cwd, dir,
          (applyDisableTypes (getConfigMerged fs cwd inlineConfig dir)).generatedRouteTree]) ∧
      isAbsoluteStr c.routesDirectory = true ∧
      isAbsoluteStr c.generatedRouteTree = true := by
  intro c hok
  unfold getConfig at hok
  obtain ⟨hc, -⟩ := validateConfig_ok _ _ hok
  rw [hc]
  unfold resolvedConfig
  simp only [Option.getD_some]
  rw [applyPathResolution_of_ne _ hne]
  by_cases habs : isAbsoluteStr dir = true
  · rw [if_pos habs]
    refine ⟨fun _ => ⟨?_, rfl⟩, fun hfalse => absurd habs (by simp [hfalse]), ?_, ?_⟩
    · show pathResolve cwd [dir, (applyDisableTypes _).routesDirectory] = _
      rw [applyDisableTypes_routesDirectory]
    · exact isAbsoluteStr_pathResolve _ _
    · exact isAbsoluteStr_pathResolve _ _
  · rw [if_neg habs]
    refine ⟨fun htrue => absurd htrue habs, fun _ => ⟨?_, rfl⟩, ?_, ?_⟩
    · show pathResolve cwd [cwd, dir, (applyDisableTypes _).routesDirectory] = _
      rw [applyDisableTypes_routesDirectory]
    · exact isAbsoluteStr_pathResolve _ _
    · exact isAbsoluteStr_pathResolve _ _

/-- C5 amended witness: directory `/proj` with default `routesDirectory`
yields the absolute `/proj/src/routes`. -/
theorem c5_resolution_witness :
    cDefaultsProj.routesDirectory = pathResolve "/cwd" ["/proj", "./src/routes"] ∧
    cDefaultsProj.routesDirectory = "/proj/src/routes" ∧
    isAbsoluteStr cDefaultsProj.routesDirectory = true :=
  ⟨((c5_resolution_amended fsEmpty "/cwd" "/proj" rawAbsent (by decide) cDefaultsProj
      rfl).1 (by decide)).1,
   rfl,
   ((c5_resolution_amended fsEmpty "/cwd" "/proj" rawAbsent (by decide) cDefaultsProj
      rfl).2.2).1⟩

/-- C8 counterexample: a merged configuration whose ignore character
trims to the underscore but which also carries the deprecated
experimental flag fails with the deprecated-flag error, not the
reserved-character error — refuting "fails with the reserved-prefix
error" as universally stated. -/
theorem c8_order_counterexample :
    jsTrim (resolvedConfig fsEmpty "/cwd" rawDeprecatedUnderscore
      ((none : Option String).getD "/cwd")).routeFileIgnorePrefix = "_" ∧
    getConfig fsEmpty "/cwd" rawDeprecatedUnderscore none =
      Except.error deprecatedFlagMessage ∧
    deprecatedFlagMessage ≠ reservedIgnoreMessage :=
  ⟨by decide, rfl, by decide⟩

/-- C8 amended: a configuration whose ignore character trims to the
underscore always makes `getConfig` fail; the error is the
reserved-character error provided the deprecated-flag and
token-collision checks pass first; and no returned configuration ever
has an ignore character trimming to the underscore. -/
theorem c8_reserved_ignore_amended (fs : FS) (cwd : String) (inlineConfig : PartialConfig)
    (configDirectory? : Option String) :
    (jsTrim (resolvedConfig fs cwd inlineConfig
        (configDirectory?.getD cwd)).routeFileIgnorePrefix = "_" →
      ∃ e, getConfig fs cwd inlineConfig configDirectory? = Except.error e) ∧
    (jsTrim (resolvedConfig fs cwd inlineConfig
        (configDirectory?.getD cwd)).routeFileIgnorePrefix = "_" →
      ((resolvedConfig fs cwd inlineConfig (configDirectory?.getD cwd)).experimental.bind
        Experimental.enableCodeSplitting).isSome = false →
      (resolvedConfig fs cwd inlineConfig (configDirectory?.getD cwd)).indexToken ≠
        (resolvedConfig fs cwd inlineConfig (configDirectory?.getD cwd)).routeToken →
      getConfig fs cwd inlineConfig configDirectory? = Except.error reservedIgnoreMessage) ∧
    (∀ c, getConfig fs cwd inlineConfig configDirectory? = Except.ok c →
      jsTrim c.routeFileIgnorePrefix ≠ "_") := by
  have hpre_of : jsTrim (resolvedConfig fs cwd inlineConfig
      (configDirectory?.getD cwd)).routeFileIgnorePrefix = "_" →
      (resolvedConfig fs cwd inlineConfig
        (configDirectory?.getD cwd)).routeFileIgnorePrefix ≠ "" := by
    intro ht he
    rw [he] at ht
    exact absurd ht (by decide)
  refine ⟨?_, ?_, ?_⟩
  · intro ht
    unfold getConfig validateConfig
    by_cases hdep : ((resolvedConfig fs cwd inlineConfig
        (configDirectory?.getD cwd)).experimental.bind
          Experimental.enableCodeSplitting).isSome = true
    · exact ⟨deprecatedFlagMessage, by rw [if_pos hdep]⟩
    · by_cases htok : (resolvedConfig fs cwd inlineConfig
          (configDirectory?.getD cwd)).indexToken =
            (resolvedConfig fs cwd inlineConfig (configDirectory?.getD cwd)).routeToken
      · exact ⟨tokenCollisionMessage, by rw [if_neg hdep, if_pos htok]⟩
      · exact ⟨reservedIgnoreMessage,
          by rw [if_neg hdep, if_neg htok, if_pos ⟨hpre_of ht, ht⟩]⟩
  · intro ht hdep htok
    unfold getConfig validateConfig
    have hdep' : ¬(((resolvedConfig fs cwd inlineConfig
        (configDirectory?.getD cwd)).experimental.bind
          Experimental.enableCodeSplitting).isSome = true) := by
      simp [hdep]
    rw [if_neg hdep', if_neg htok, if_pos ⟨hpre_of ht, ht⟩]
  · intro c hok
    unfold getConfig at hok
    exact (validateConfig_ok _ _ hok).2

/-- C8 amended witness: the whitespace-padded underscore `" _ "` fails
with the reserved-character error when the earlier checks pass. -/
theorem c8_reserved_ignore_witness :
    getConfig fsEmpty "/cwd" rawUnderscorePad none = Except.error reservedIgnoreMessage :=
  (c8_reserved_ignore_amended fsEmpty "/cwd" rawUnderscorePad none).2.1
    (by decide) (by decide) (by decide)

/-- C9: `getConfig` is deterministic — two calls with identical inline
overrides, directory argument, filesystem and working directory yield
the same result, errors included. -/
theorem c9_deterministic (fs1 fs2 : FS) (cwd1 cwd2 : String) (i1 i2 : PartialConfig)
    (d1 d2 : Option String) (hfs : fs1 = fs2) (hcwd : cwd1 = cwd2) (hi : i1 = i2)
    (hd : d1 = d2) :
    getConfig fs1 cwd1 i1 d1 = getConfig fs2 cwd2 i2 d2 := by
  rw [hfs, hcwd, hi, hd]

/-- C9 witness: two identical concrete calls agree. -/
theorem c9_deterministic_witness :
    getConfig fsEmpty "/cwd" rawAbsent none = getConfig fsEmpty "/cwd" rawAbsent none :=
  c9_deterministic fsEmpty fsEmpty "/cwd" "/cwd" rawAbsent rawAbsent none none rfl rfl rfl rfl

end TsrGen
